import Mathlib

/-!
Verification development for the openclaw gateway lifecycle code:
the respawn decision engine, the run-loop restart state machine, and the
telegram webhook ingestion path (src/telegram/webhook.ts).

The webhook ingestion path is translated directly from
src/telegram/webhook.ts.  The run-loop (src/cli/gateway-cli/run-loop.ts),
the respawn engine (src/infra/process-respawn.ts), the request body guard
(src/infra/http-body.ts) and the plugin HTTP route registry
(src/plugins/http-registry.ts) are not present in the tree — only their
tests and callers are — so those components are modelled from the spec
(and cross-checked against the expectations recorded in
run-loop.test.ts and process-respawn.test.ts).

Side-effecting operations are embedded as pure functions that return,
alongside their result, the list of observable effects they perform, in
order.
-/

/- ### Respawn decision engine -/

/-- Environment signals inspected by the respawn engine.  Each field is
`true` when the corresponding environment variable is set.  The variable
names come from process-respawn.test.ts: OPENCLAW_NO_RESPAWN,
OPENCLAW_SUPERVISED, LAUNCH_JOB_LABEL, LAUNCH_JOB_NAME, INVOCATION_ID,
SYSTEMD_EXEC_PID, JOURNAL_STREAM. -/
structure RespawnEnv where
  noRespawn : Bool
  openclawSupervised : Bool
  launchJobLabel : Bool
  launchJobName : Bool
  invocationId : Bool
  systemdExecPid : Bool
  journalStream : Bool
deriving DecidableEq, Repr

/-- Identity of the current process: executable path, interpreter flags
(process.execArgv), and program arguments (process.argv). -/
structure ProcInfo where
  execPath : String
  execArgv : List String
  argv : List String
deriving DecidableEq, Repr

/-- One call to the process-spawning primitive: command, argument list,
and the two options the engine sets (detached, stdio inherit). -/
structure SpawnCall where
  cmd : String
  args : List String
  detached : Bool
  stdioInherit : Bool
deriving DecidableEq, Repr

/-- Tagged result of the respawn decision engine (spec section 3,
RespawnDecision). -/
inductive RespawnDecision where
  | disabled
  | supervised
  | spawned (pid : Nat)
  | failed (detail : String)
deriving DecidableEq, Repr

/-- Modelled from the spec: src/infra/process-respawn.ts is not in the
tree; the spec (section 4.1) says the engine treats the process as
supervised when an explicit supervised flag or a well-known
supervisor-injected variable (launch-job identifier, invocation
identifier, and companions listed in process-respawn.test.ts) is
present. -/
def isLikelySupervisedProcess (env : RespawnEnv) : Bool :=
  env.openclawSupervised || env.launchJobLabel || env.launchJobName ||
    env.invocationId || env.systemdExecPid || env.journalStream

/-- The spawn call the engine makes for the successor process: current
executable path, current interpreter flags followed by the current
program arguments (process.argv minus the leading interpreter path),
detached, stdio inherited — matching the expectation in
process-respawn.test.ts. -/
def successorSpawnCall (p : ProcInfo) : SpawnCall :=
  { cmd := p.execPath
    args := p.execArgv ++ p.argv.drop 1
    detached := true
    stdioInherit := true }

/-- Modelled from the spec: src/infra/process-respawn.ts is not in the
tree.  Spec section 4.1: opt-out flag present → `disabled`, no spawn;
else supervisor marker present → `supervised`, no spawn; else attempt
one detached spawn, returning `spawned` with the pid on success and
`failed` carrying the error message if the spawn call raises.  The
spawning primitive is passed in as a function; the second component of
the result lists the spawn calls actually made. -/
def restartGatewayProcessWithFreshPid (env : RespawnEnv) (p : ProcInfo)
    (doSpawn : SpawnCall → Except String Nat) :
    RespawnDecision × List SpawnCall :=
  if env.noRespawn then (.disabled, [])
  else if isLikelySupervisedProcess env then (.supervised, [])
  else
    match doSpawn (successorSpawnCall p) with
    | .ok pid => (.spawned pid, [successorSpawnCall p])
    | .error msg => (.failed msg, [successorSpawnCall p])

/- ### Run-loop state machine -/

/-- Observable events of one restart attempt of the gateway run loop, in
the order the loop performs them. -/
inductive LoopEvent where
  | startCalled (epoch : Nat)
  | drainWait (timeoutMs : Nat)
  | warnDrainTimeout
  | closeCalled (epoch : Nat) (reason : String) (restartExpectedMs : Nat)
  | markRestartHandled
  | resetAllLanes
  | respawnDecided (d : RespawnDecision)
  | exitCalled (code : Nat)
deriving DecidableEq, Repr

/-- External readings consumed by one restart attempt: the restart
authorization (consumed atomically), the external allow flag, the active
task count at drain entry, the drain result reported by
waitForActiveTasks, and the respawn decision for this attempt. -/
structure RestartEnv where
  authorized : Bool
  externallyAllowed : Bool
  activeTaskCount : Nat
  drained : Bool
  decision : RespawnDecision
deriving DecidableEq, Repr

/-- A restart signal is honored only when the restart authorization was
set (consumed) or the external allow flag is active (spec section 4.2). -/
def proceedsRestart (env : RestartEnv) : Bool :=
  env.authorized || env.externallyAllowed

/-- Drain timeout bound passed to waitForActiveTasks (spec section 4.2;
pinned to 30000 ms by run-loop.test.ts). -/
def DRAIN_TIMEOUT_MS : Nat := 30000

/-- Restart-expectation hint passed to close (spec section 4.2; pinned
to 1500 ms by run-loop.test.ts). -/
def RESTART_EXPECTED_MS : Nat := 1500

/-- Modelled from the spec: src/cli/gateway-cli/run-loop.ts is not in
the tree.  Spec section 4.2, Draining: if the active task count is zero
proceed immediately; otherwise wait up to DRAIN_TIMEOUT_MS, and when the
wait reports not drained, log the drain-timeout warning once and proceed
anyway. -/
def drainEvents (env : RestartEnv) : List LoopEvent :=
  if env.activeTaskCount = 0 then []
  else .drainWait DRAIN_TIMEOUT_MS ::
    (if env.drained then [] else [.warnDrainTimeout])

/-- Modelled from the spec: src/cli/gateway-cli/run-loop.ts is not in
the tree.  Spec section 4.2, branch on the respawn decision: supervised
exits with code 1, spawned exits with code 0, disabled and failed call
the server-start function again for the next epoch in the same
process. -/
def respawnBranchEvents (epoch : Nat) : RespawnDecision → List LoopEvent
  | .supervised => [.exitCalled 1]
  | .spawned _ => [.exitCalled 0]
  | .disabled => [.startCalled (epoch + 1)]
  | .failed _ => [.startCalled (epoch + 1)]

/-- Modelled from the spec: src/cli/gateway-cli/run-loop.ts is not in
the tree.  One restart attempt while the loop is Running in the given
epoch (spec sections 4.2 and 5): an unauthorized signal is ignored with
no events at all; an honored signal drains, closes the current epoch
handle with the reason string and restart hint, marks the restart
handled, resets all lanes, takes the respawn decision, and then either
exits or starts the next epoch. -/
def handleRestartSignal (epoch : Nat) (env : RestartEnv) : List LoopEvent :=
  if proceedsRestart env = false then []
  else
    drainEvents env ++
      [.closeCalled epoch "gateway restarting" RESTART_EXPECTED_MS,
       .markRestartHandled, .resetAllLanes, .respawnDecided env.decision] ++
      respawnBranchEvents epoch env.decision

/-- Phase of the loop after a restart attempt: still Running (ignored
signal, or in-process restart) or Exiting with a code. -/
inductive LoopPhase where
  | running
  | exiting (code : Nat)
deriving DecidableEq, Repr

/-- Modelled from the spec: src/cli/gateway-cli/run-loop.ts is not in
the tree.  Resulting phase of one restart attempt (spec section 4.2). -/
def phaseAfterRestartSignal (env : RestartEnv) : LoopPhase :=
  if proceedsRestart env = false then .running
  else
    match env.decision with
    | .supervised => .exiting 1
    | .spawned _ => .exiting 0
    | .disabled => .running
    | .failed _ => .running

/-- Recognizer for exit events. -/
def isExitEvent : LoopEvent → Bool
  | .exitCalled _ => true
  | _ => false

/-- Recognizer for start events. -/
def isStartEvent : LoopEvent → Bool
  | .startCalled _ => true
  | _ => false

/-- Recognizer for close events. -/
def isCloseEvent : LoopEvent → Bool
  | .closeCalled _ _ _ => true
  | _ => false

/-- Recognizer for the drain-timeout warning. -/
def isWarnEvent : LoopEvent → Bool
  | .warnDrainTimeout => true
  | _ => false

/-- Recognizer for drain-wait events. -/
def isDrainWaitEvent : LoopEvent → Bool
  | .drainWait _ => true
  | _ => false

/-- Recognizer for the markRestartHandled event. -/
def isMarkEvent : LoopEvent → Bool
  | .markRestartHandled => true
  | _ => false

/-- Recognizer for the resetAllLanes event. -/
def isResetEvent : LoopEvent → Bool
  | .resetAllLanes => true
  | _ => false

/- ### Telegram webhook ingestion (src/telegram/webhook.ts) -/

/-- Body-size ceiling, from webhook.ts:
TELEGRAM_WEBHOOK_MAX_BODY_BYTES = 1024 * 1024. -/
def TELEGRAM_WEBHOOK_MAX_BODY_BYTES : Nat := 1024 * 1024

/-- Body read-timeout ceiling, from webhook.ts:
TELEGRAM_WEBHOOK_BODY_TIMEOUT_MS = 30_000. -/
def TELEGRAM_WEBHOOK_BODY_TIMEOUT_MS : Nat := 30000

/-- Handler (callback) timeout ceiling, from webhook.ts:
TELEGRAM_WEBHOOK_CALLBACK_TIMEOUT_MS = 10_000. -/
def TELEGRAM_WEBHOOK_CALLBACK_TIMEOUT_MS : Nat := 10000

/-- Observable effects of handling one inbound webhook request.
statusWithAllow models res.writeHead(code, Allow header) and
statusWritten models a plain res.writeHead(code); guardErrorResponse is
the error response the body guard sends when it trips. -/
inductive WebhookEffect where
  | statusWithAllow (code : Nat) (allow : String)
  | statusWritten (code : Nat)
  | logReceived
  | guardErrorResponse
  | handlerInvoked
  | logProcessed
  | logError (msg : String)
  | runtimeLog (msg : String)
  | guardDisposed
deriving DecidableEq, Repr

/-- Outcome of the downstream grammy webhook handler call for a request:
it either does not return a promise, or its promise later resolves, or
its promise later rejects with an error message. -/
inductive HandlerOutcome where
  | notPromise
  | resolves
  | rejects (msg : String)
deriving DecidableEq, Repr

/-- One inbound HTTP request as seen by the webhook code: url, method,
total body size and wall-clock time needed to read the body, the
downstream handler outcome, and whether response headers were already
sent when the handler rejects. -/
structure WebhookRequest where
  url : String
  method : String
  bodyBytes : Nat
  bodyReadMs : Nat
  outcome : HandlerOutcome
  headersSent : Bool
deriving DecidableEq, Repr

/-- Modelled from the spec: src/infra/http-body.ts
(installRequestBodyLimitGuard) is not in the tree.  Spec section 4.4:
the guard trips when the body exceeds the size ceiling or is not fully
read within the read-timeout ceiling, and when it trips it aborts the
request immediately with an error response, before the handler can be
invoked with a truncated or partial body.  Returns the tripped flag as
read by the caller right after installation, together with the effects
the guard itself performs. -/
def installRequestBodyLimitGuard (bodyBytes bodyReadMs maxBytes timeoutMs : Nat) :
    Bool × List WebhookEffect :=
  let tripped := decide (bodyBytes > maxBytes) || decide (bodyReadMs > timeoutMs)
  (tripped, if tripped then [.guardErrorResponse] else [])

/-- Translation of handleWebhookRequest (webhook.ts lines 79-133).
`installGuard` stands for installRequestBodyLimitGuard applied to this
request and response (the function passes the two ceilings and receives
the tripped flag plus the guard effects); `trippedAtCompletion` is what
guard.isTripped() returns when the handler promise settles (read only in
the rejection branch, exactly as in the source).  Non-POST methods get a
405 with an Allow: POST header; then the received log (when diagnostics
are enabled), the guard install; an early return when the guard already
tripped; otherwise the handler call, and on a promise: the processed log
on resolution, or on rejection — unless the guard tripped — the error
log, the runtime log, a 500 when headers were not sent; finally the
guard is disposed on every path. -/
def handleWebhookRequest (diagnosticsEnabled : Bool)
    (installGuard : Nat → Nat → Bool × List WebhookEffect)
    (trippedAtCompletion : Bool) (req : WebhookRequest) :
    List WebhookEffect :=
  if req.method ≠ "POST" then [.statusWithAllow 405 "POST"]
  else
    (if diagnosticsEnabled then [.logReceived] else []) ++
    (let guard := installGuard TELEGRAM_WEBHOOK_MAX_BODY_BYTES
        TELEGRAM_WEBHOOK_BODY_TIMEOUT_MS
     guard.2 ++
     (if guard.1 then []
      else
        .handlerInvoked ::
        (match req.outcome with
         | .notPromise => [.guardDisposed]
         | .resolves =>
             (if diagnosticsEnabled then [.logProcessed] else []) ++
               [.guardDisposed]
         | .rejects msg =>
             (if trippedAtCompletion then []
              else
                (if diagnosticsEnabled then [.logError msg] else []) ++
                  [.runtimeLog ("webhook handler failed: " ++ msg)] ++
                  (if req.headersSent then [] else [.statusWritten 500])) ++
               [.guardDisposed])))

/-- The guard-install function for a given request: the body guard of
webhook.ts line 89, closed over this request and response. -/
def telegramGuard (req : WebhookRequest) : Nat → Nat → Bool × List WebhookEffect :=
  fun maxBytes timeoutMs =>
    installRequestBodyLimitGuard req.bodyBytes req.bodyReadMs maxBytes timeoutMs

/-- Translation of the standalone-listener request dispatch
(webhook.ts lines 191-203): the health path answers 200; any other url
that is not the webhook path, or any method other than POST, answers
404; only a POST to the webhook path reaches handleWebhookRequest. -/
def standaloneServerDispatch (diagnosticsEnabled : Bool)
    (trippedAtCompletion : Bool) (healthPath path : String)
    (req : WebhookRequest) : List WebhookEffect :=
  if req.url = healthPath then [.statusWritten 200]
  else if req.url ≠ path ∨ req.method ≠ "POST" then [.statusWritten 404]
  else handleWebhookRequest diagnosticsEnabled (telegramGuard req)
    trippedAtCompletion req

/-- Modelled from the spec: src/plugins/http-registry.ts
(registerPluginHttpRoute) is not in the tree.  Spec section 4.3:
dispatch resolves the handler strictly by exact path match; unmatched
paths fall through to a not-found response.  The registered handler
receives every method (the registry does no method filtering). -/
def gatewayRouterDispatch (handlerPath : String)
    (handler : WebhookRequest → List WebhookEffect)
    (req : WebhookRequest) : List WebhookEffect :=
  if req.url = handlerPath then handler req else [.statusWritten 404]

/- ### startTelegramWebhook (webhook.ts lines 26-233) -/

/-- Options of startTelegramWebhook that influence its observable
start-up behavior.  `diagnosticsEnabled` stands for
isDiagnosticsEnabled(opts.config). -/
structure StartOpts where
  token : String
  accountId : Option String
  path : Option String
  port : Option Nat
  host : Option String
  secret : Option String
  healthPath : Option String
  publicUrl : Option String
  useGatewayRouter : Bool
  diagnosticsEnabled : Bool
deriving DecidableEq, Repr

/-- Side effects startTelegramWebhook performs during start-up, in
order: bot construction, diagnostic heartbeat start, plugin route
registration, the external setWebhook call, and the standalone HTTP
listener start. -/
inductive StartEffect where
  | botCreated (token : String)
  | heartbeatStarted
  | routeRegistered (path : String)
  | setWebhookCalled (url : String) (secret : String)
  | listenerStarted (host : String) (port : Nat)
deriving DecidableEq, Repr

/-- Translation of the start-up path of startTelegramWebhook
(webhook.ts lines 26-233): defaults are applied to path, health path,
port and host; the secret is trimmed (absent secret behaves as the empty
string) and an empty result throws before any side effect; then the bot
is created and, with diagnostics enabled, the heartbeat started; in
gateway-router mode a missing publicUrl throws, otherwise the route is
registered and setWebhook called; in standalone mode setWebhook is
called and then the listener started.  The result pairs the effects
performed, in order, with the thrown error message when the call
throws. -/
def startTelegramWebhook (o : StartOpts) : List StartEffect × Option String :=
  let path := o.path.getD "/telegram-webhook"
  let port := o.port.getD 8787
  let host := o.host.getD "127.0.0.1"
  let secret := (o.secret.getD "").trim
  if secret = "" then
    ([], some ("Telegram webhook mode requires a non-empty secret token. " ++
      "Set channels.telegram.webhookSecret in your config."))
  else
    let preEffects := StartEffect.botCreated o.token ::
      (if o.diagnosticsEnabled then [StartEffect.heartbeatStarted] else [])
    if o.useGatewayRouter then
      match o.publicUrl with
      | none =>
          (preEffects,
           some ("Telegram webhook gateway-router mode requires publicUrl " ++
             "(set TELEGRAM_WEBHOOK_URL env var or channels.telegram.webhookUrl)."))
      | some u =>
          (preEffects ++ [.routeRegistered path, .setWebhookCalled u secret],
           none)
    else
      let publicUrl := o.publicUrl.getD
        ("http://" ++ (if host = "0.0.0.0" then "localhost" else host) ++
          ":" ++ toString port ++ path)
      (preEffects ++ [.setWebhookCalled publicUrl secret,
        .listenerStarted host port], none)

/-- Events of a restart attempt strictly before the first server-start
call of the next epoch. -/
def eventsBeforeFirstStart (tr : List LoopEvent) : List LoopEvent :=
  tr.takeWhile (fun e => !isStartEvent e)

/-- A concrete POST request whose 2 MB body exceeds the size ceiling. -/
def oversizedPostRequest : WebhookRequest :=
  { url := "/telegram-webhook", method := "POST", bodyBytes := 2000000,
    bodyReadMs := 50, outcome := .notPromise, headersSent := false }

/-- A concrete small POST request whose handler promise resolves. -/
def resolvingPostRequest : WebhookRequest :=
  { url := "/telegram-webhook", method := "POST", bodyBytes := 10,
    bodyReadMs := 5, outcome := .resolves, headersSent := false }

/-- A concrete small POST request whose handler promise rejects. -/
def rejectingPostRequest : WebhookRequest :=
  { url := "/telegram-webhook", method := "POST", bodyBytes := 10,
    bodyReadMs := 5, outcome := .rejects "boom", headersSent := false }

/-- A concrete GET request to the webhook path. -/
def getWebhookRequest : WebhookRequest :=
  { url := "/telegram-webhook", method := "GET", bodyBytes := 0,
    bodyReadMs := 0, outcome := .notPromise, headersSent := false }

/-- Concrete start options with an empty secret. -/
def emptySecretOpts : StartOpts :=
  { token := "tok", accountId := none, path := none, port := none,
    host := none, secret := some "", healthPath := none, publicUrl := none,
    useGatewayRouter := false, diagnosticsEnabled := false }

/- ### Theorems -/

/-- The drain phase emits one of exactly three event prefixes. -/
lemma drainEvents_cases (env : RestartEnv) :
    drainEvents env = [] ∨
    drainEvents env = [.drainWait DRAIN_TIMEOUT_MS] ∨
    drainEvents env = [.drainWait DRAIN_TIMEOUT_MS, .warnDrainTimeout] := by
  unfold drainEvents
  split
  · exact Or.inl rfl
  · split
    · exact Or.inr (Or.inl rfl)
    · exact Or.inr (Or.inr rfl)

/-- Claim C1: for every restart attempt in the run loop, a respawn decision of
supervised causes the process to exit with code 1, spawned causes exit
with code 0, and disabled or failed never invoke process exit and
instead lead to the server-start function being called again in the same
process. -/
theorem runLoop_exit_codes (epoch : Nat) (env : RestartEnv)
    (h : proceedsRestart env = true) :
    (env.decision = .supervised →
      (handleRestartSignal epoch env).filter isExitEvent = [.exitCalled 1] ∧
      phaseAfterRestartSignal env = .exiting 1) ∧
    (∀ pid, env.decision = .spawned pid →
      (handleRestartSignal epoch env).filter isExitEvent = [.exitCalled 0] ∧
      phaseAfterRestartSignal env = .exiting 0) ∧
    ((env.decision = .disabled ∨ ∃ d, env.decision = .failed d) →
      (handleRestartSignal epoch env).filter isExitEvent = [] ∧
      LoopEvent.startCalled (epoch + 1) ∈ handleRestartSignal epoch env ∧
      phaseAfterRestartSignal env = .running) := by
  rcases drainEvents_cases env with hd | hd | hd <;>
    cases hdec : env.decision <;>
    simp [handleRestartSignal, phaseAfterRestartSignal, respawnBranchEvents,
      h, hd, hdec, isExitEvent]

/-- Witness for C1: a supervised decision on an authorized restart
attempt filters to exactly one exit event with code 1 and ends in the
Exiting phase. -/
theorem runLoop_exit_codes_witness :
    proceedsRestart
      { authorized := true, externallyAllowed := false, activeTaskCount := 0,
        drained := true, decision := .supervised } = true ∧
    ((handleRestartSignal 0
        { authorized := true, externallyAllowed := false, activeTaskCount := 0,
          drained := true, decision := .supervised }).filter isExitEvent =
      [.exitCalled 1] ∧
    phaseAfterRestartSignal
      { authorized := true, externallyAllowed := false, activeTaskCount := 0,
        drained := true, decision := .supervised } = .exiting 1) :=
  ⟨rfl, (runLoop_exit_codes 0
    { authorized := true, externallyAllowed := false, activeTaskCount := 0,
      drained := true, decision := .supervised } rfl).1 rfl⟩

/-- Claim C2: for every restart sequence, the run loop calls close exactly
once on the current epoch handle, with a reason string and a
restart-expectation hint of 1500 ms, and the server-start function for
the next epoch runs only after markRestartHandled and resetAllLanes have
both completed. -/
theorem runLoop_close_once_and_ordering (epoch : Nat) (env : RestartEnv)
    (h : proceedsRestart env = true) :
    (handleRestartSignal epoch env).filter isCloseEvent =
      [.closeCalled epoch "gateway restarting" RESTART_EXPECTED_MS] ∧
    RESTART_EXPECTED_MS = 1500 ∧
    (LoopEvent.startCalled (epoch + 1) ∈ handleRestartSignal epoch env →
      LoopEvent.markRestartHandled ∈
        eventsBeforeFirstStart (handleRestartSignal epoch env) ∧
      LoopEvent.resetAllLanes ∈
        eventsBeforeFirstStart (handleRestartSignal epoch env)) := by
  rcases drainEvents_cases env with hd | hd | hd <;>
    cases hdec : env.decision <;>
    simp [handleRestartSignal, eventsBeforeFirstStart, respawnBranchEvents,
      h, hd, hdec, isCloseEvent, isStartEvent, List.takeWhile,
      RESTART_EXPECTED_MS]

/-- Witness for C2: a disabled decision on an authorized restart attempt
yields exactly one close call, and both bookkeeping events precede the
next start call. -/
theorem runLoop_close_once_and_ordering_witness :
    proceedsRestart
      { authorized := true, externallyAllowed := false, activeTaskCount := 0,
        drained := true, decision := .disabled } = true ∧
    ((handleRestartSignal 0
        { authorized := true, externallyAllowed := false, activeTaskCount := 0,
          drained := true, decision := .disabled }).filter isCloseEvent =
      [.closeCalled 0 "gateway restarting" RESTART_EXPECTED_MS] ∧
    LoopEvent.markRestartHandled ∈
      eventsBeforeFirstStart (handleRestartSignal 0
        { authorized := true, externallyAllowed := false,
          activeTaskCount := 0, drained := true, decision := .disabled }) ∧
    LoopEvent.resetAllLanes ∈
      eventsBeforeFirstStart (handleRestartSignal 0
        { authorized := true, externallyAllowed := false,
          activeTaskCount := 0, drained := true, decision := .disabled })) := by
  have h := runLoop_close_once_and_ordering 0
    { authorized := true, externallyAllowed := false, activeTaskCount := 0,
      drained := true, decision := .disabled } rfl
  exact ⟨rfl, h.1, (h.2.2 (by decide)).1, (h.2.2 (by decide)).2⟩

/-- Claim C3: when the run loop enters draining with a non-zero active-task
count it waits with the 30000 ms bound, and when the wait reports not
drained it logs the drain-timeout warning exactly once and still
proceeds to close and to the respawn decision. -/
theorem runLoop_drain_timeout_proceeds (epoch : Nat) (env : RestartEnv)
    (h1 : proceedsRestart env = true)
    (h2 : env.activeTaskCount ≠ 0)
    (h3 : env.drained = false) :
    (handleRestartSignal epoch env).filter isDrainWaitEvent =
      [.drainWait DRAIN_TIMEOUT_MS] ∧
    DRAIN_TIMEOUT_MS = 30000 ∧
    (handleRestartSignal epoch env).countP isWarnEvent = 1 ∧
    (handleRestartSignal epoch env).filter isCloseEvent =
      [.closeCalled epoch "gateway restarting" RESTART_EXPECTED_MS] ∧
    LoopEvent.respawnDecided env.decision ∈ handleRestartSignal epoch env := by
  have hd : drainEvents env =
      [.drainWait DRAIN_TIMEOUT_MS, .warnDrainTimeout] := by
    unfold drainEvents
    simp [h2, h3]
  cases hdec : env.decision <;>
    simp [handleRestartSignal, respawnBranchEvents, h1, hd, hdec,
      isDrainWaitEvent, isWarnEvent, isCloseEvent, DRAIN_TIMEOUT_MS]

/-- Witness for C3: an authorized restart with two active tasks and a
failed drain logs the warning once and still closes and decides. -/
theorem runLoop_drain_timeout_proceeds_witness :
    proceedsRestart
      { authorized := true, externallyAllowed := false, activeTaskCount := 2,
        drained := false, decision := .disabled } = true ∧
    (2 : Nat) ≠ 0 ∧
    ((handleRestartSignal 0
        { authorized := true, externallyAllowed := false, activeTaskCount := 2,
          drained := false, decision := .disabled }).filter isDrainWaitEvent =
      [.drainWait DRAIN_TIMEOUT_MS] ∧
    DRAIN_TIMEOUT_MS = 30000 ∧
    (handleRestartSignal 0
        { authorized := true, externallyAllowed := false, activeTaskCount := 2,
          drained := false, decision := .disabled }).countP isWarnEvent = 1 ∧
    (handleRestartSignal 0
        { authorized := true, externallyAllowed := false, activeTaskCount := 2,
          drained := false, decision := .disabled }).filter isCloseEvent =
      [.closeCalled 0 "gateway restarting" RESTART_EXPECTED_MS] ∧
    LoopEvent.respawnDecided .disabled ∈ handleRestartSignal 0
      { authorized := true, externallyAllowed := false, activeTaskCount := 2,
        drained := false, decision := .disabled }) :=
  ⟨rfl, by decide, runLoop_drain_timeout_proceeds 0
    { authorized := true, externallyAllowed := false, activeTaskCount := 2,
      drained := false, decision := .disabled } rfl (by decide) rfl⟩

/-- Claim C4: a restart signal received while Running with no consumed
authorization and the external allow flag unset produces zero observable
effects and leaves the loop in the Running phase. -/
theorem runLoop_unauthorized_noop (epoch : Nat) (env : RestartEnv)
    (h1 : env.authorized = false) (h2 : env.externallyAllowed = false) :
    handleRestartSignal epoch env = [] ∧
    phaseAfterRestartSignal env = .running := by
  have hp : proceedsRestart env = false := by
    simp [proceedsRestart, h1, h2]
  exact ⟨by simp [handleRestartSignal, hp],
    by simp [phaseAfterRestartSignal, hp]⟩

/-- Witness for C4: an unauthorized restart signal at a concrete
environment produces the empty event list and stays Running. -/
theorem runLoop_unauthorized_noop_witness :
    handleRestartSignal 0
      { authorized := false, externallyAllowed := false, activeTaskCount := 5,
        drained := false, decision := .spawned 77 } = [] ∧
    phaseAfterRestartSignal
      { authorized := false, externallyAllowed := false, activeTaskCount := 5,
        drained := false, decision := .spawned 77 } = .running :=
  runLoop_unauthorized_noop 0
    { authorized := false, externallyAllowed := false, activeTaskCount := 5,
      drained := false, decision := .spawned 77 } rfl rfl

/-- Claim C5: the respawn decision function returns disabled and spawns
nothing whenever the opt-out flag is set (taking precedence over any
supervisor marker), and otherwise returns supervised and spawns nothing
whenever any supervisor marker is present. -/
theorem respawn_disabled_and_supervised (env : RespawnEnv) (p : ProcInfo)
    (doSpawn : SpawnCall → Except String Nat) :
    (env.noRespawn = true →
      restartGatewayProcessWithFreshPid env p doSpawn = (.disabled, [])) ∧
    (env.noRespawn = false →
      (env.openclawSupervised = true ∨ env.launchJobLabel = true ∨
       env.launchJobName = true ∨ env.invocationId = true ∨
       env.systemdExecPid = true ∨ env.journalStream = true) →
      restartGatewayProcessWithFreshPid env p doSpawn = (.supervised, [])) := by
  constructor
  · intro h
    simp [restartGatewayProcessWithFreshPid, h]
  · intro h hm
    have hs : isLikelySupervisedProcess env = true := by
      rcases hm with h1 | h1 | h1 | h1 | h1 | h1 <;>
        simp [isLikelySupervisedProcess, h1]
    simp [restartGatewayProcessWithFreshPid, h, hs]

/-- Witness for C5: with the opt-out flag set (even alongside a
supervisor marker) the decision is disabled with no spawn; with only an
invocation-identifier marker set the decision is supervised with no
spawn. -/
theorem respawn_disabled_and_supervised_witness :
    restartGatewayProcessWithFreshPid
      { noRespawn := true, openclawSupervised := true, launchJobLabel := false,
        launchJobName := false, invocationId := false, systemdExecPid := false,
        journalStream := false }
      { execPath := "/usr/local/bin/node", execArgv := [],
        argv := ["/usr/local/bin/node", "/repo/dist/index.js"] }
      (fun _ => .ok 4242) = (.disabled, []) ∧
    restartGatewayProcessWithFreshPid
      { noRespawn := false, openclawSupervised := false, launchJobLabel := false,
        launchJobName := false, invocationId := true, systemdExecPid := false,
        journalStream := false }
      { execPath := "/usr/local/bin/node", execArgv := [],
        argv := ["/usr/local/bin/node", "/repo/dist/index.js"] }
      (fun _ => .ok 4242) = (.supervised, []) :=
  ⟨(respawn_disabled_and_supervised
      { noRespawn := true, openclawSupervised := true, launchJobLabel := false,
        launchJobName := false, invocationId := false, systemdExecPid := false,
        journalStream := false }
      { execPath := "/usr/local/bin/node", execArgv := [],
        argv := ["/usr/local/bin/node", "/repo/dist/index.js"] }
      (fun _ => .ok 4242)).1 rfl,
   (respawn_disabled_and_supervised
      { noRespawn := false, openclawSupervised := false, launchJobLabel := false,
        launchJobName := false, invocationId := true, systemdExecPid := false,
        journalStream := false }
      { execPath := "/usr/local/bin/node", execArgv := [],
        argv := ["/usr/local/bin/node", "/repo/dist/index.js"] }
      (fun _ => .ok 4242)).2 rfl
     (Or.inr (Or.inr (Or.inr (Or.inl rfl))))⟩

/-- Claim C6: with no opt-out flag and no supervisor marker, the respawn
decision function makes exactly one spawn attempt — current executable,
interpreter flags followed by the program arguments, detached, stdio
inherited — returning spawned with the pid on success, and failed
carrying the error message (without throwing) when the spawn call
raises. -/
theorem respawn_spawn_attempt (env : RespawnEnv) (p : ProcInfo)
    (doSpawn : SpawnCall → Except String Nat)
    (h1 : env.noRespawn = false)
    (h2 : isLikelySupervisedProcess env = false) :
    (restartGatewayProcessWithFreshPid env p doSpawn).2 =
      [successorSpawnCall p] ∧
    successorSpawnCall p =
      { cmd := p.execPath, args := p.execArgv ++ p.argv.drop 1,
        detached := true, stdioInherit := true } ∧
    (∀ pid, doSpawn (successorSpawnCall p) = .ok pid →
      (restartGatewayProcessWithFreshPid env p doSpawn).1 = .spawned pid) ∧
    (∀ msg, doSpawn (successorSpawnCall p) = .error msg →
      (restartGatewayProcessWithFreshPid env p doSpawn).1 = .failed msg) := by
  refine ⟨?_, rfl, ?_, ?_⟩ <;>
    [skip; intro pid hok; intro msg herr] <;>
    cases hds : doSpawn (successorSpawnCall p) <;>
    simp_all [restartGatewayProcessWithFreshPid, h1, h2]

/-- Witness for C6: with a clean environment, a spawn primitive that
returns pid 4242 yields a spawned decision with one recorded call, and a
primitive that raises yields a failed decision with the message. -/
theorem respawn_spawn_attempt_witness :
    ((restartGatewayProcessWithFreshPid
        { noRespawn := false, openclawSupervised := false,
          launchJobLabel := false, launchJobName := false,
          invocationId := false, systemdExecPid := false,
          journalStream := false }
        { execPath := "/usr/local/bin/node", execArgv := ["--import", "tsx"],
          argv := ["/usr/local/bin/node", "/repo/dist/index.js", "gateway",
            "run"] }
        (fun _ => .ok 4242)).1 = .spawned 4242) ∧
    ((restartGatewayProcessWithFreshPid
        { noRespawn := false, openclawSupervised := false,
          launchJobLabel := false, launchJobName := false,
          invocationId := false, systemdExecPid := false,
          journalStream := false }
        { execPath := "/usr/local/bin/node", execArgv := ["--import", "tsx"],
          argv := ["/usr/local/bin/node", "/repo/dist/index.js", "gateway",
            "run"] }
        (fun _ => .error "spawn failed")).1 = .failed "spawn failed") :=
  ⟨(respawn_spawn_attempt
      { noRespawn := false, openclawSupervised := false,
        launchJobLabel := false, launchJobName := false,
        invocationId := false, systemdExecPid := false,
        journalStream := false }
      { execPath := "/usr/local/bin/node", execArgv := ["--import", "tsx"],
        argv := ["/usr/local/bin/node", "/repo/dist/index.js", "gateway",
          "run"] }
      (fun _ => .ok 4242) rfl rfl).2.2.1 4242 rfl,
   (respawn_spawn_attempt
      { noRespawn := false, openclawSupervised := false,
        launchJobLabel := false, launchJobName := false,
        invocationId := false, systemdExecPid := false,
        journalStream := false }
      { execPath := "/usr/local/bin/node", execArgv := ["--import", "tsx"],
        argv := ["/usr/local/bin/node", "/repo/dist/index.js", "gateway",
          "run"] }
      (fun _ => .error "spawn failed") rfl rfl).2.2.2 "spawn failed" rfl⟩

/-- Claim C7: for every inbound webhook POST request whose body exceeds the
size ceiling or is not fully read within the read-timeout ceiling, the
guard aborts the request with an error response and the downstream
handler is never invoked. -/
theorem webhook_guard_trip_blocks_handler (diagnosticsEnabled : Bool)
    (trippedAtCompletion : Bool) (req : WebhookRequest)
    (hpost : req.method = "POST")
    (hviol : req.bodyBytes > TELEGRAM_WEBHOOK_MAX_BODY_BYTES ∨
      req.bodyReadMs > TELEGRAM_WEBHOOK_BODY_TIMEOUT_MS) :
    WebhookEffect.guardErrorResponse ∈
      handleWebhookRequest diagnosticsEnabled (telegramGuard req)
        trippedAtCompletion req ∧
    WebhookEffect.handlerInvoked ∉
      handleWebhookRequest diagnosticsEnabled (telegramGuard req)
        trippedAtCompletion req := by
  have htrip : (decide (req.bodyBytes > TELEGRAM_WEBHOOK_MAX_BODY_BYTES) ||
      decide (req.bodyReadMs > TELEGRAM_WEBHOOK_BODY_TIMEOUT_MS)) = true := by
    rcases hviol with h | h <;> simp [h]
  cases diagnosticsEnabled <;>
    simp [handleWebhookRequest, hpost, telegramGuard,
      installRequestBodyLimitGuard, htrip]

/-- Witness for C7: a 2 MB POST body trips the guard, which aborts with
an error response, and the handler is never invoked. -/
theorem webhook_guard_trip_blocks_handler_witness :
    oversizedPostRequest.method = "POST" ∧
    oversizedPostRequest.bodyBytes > TELEGRAM_WEBHOOK_MAX_BODY_BYTES ∧
    (WebhookEffect.guardErrorResponse ∈
      handleWebhookRequest true (telegramGuard oversizedPostRequest) false
        oversizedPostRequest ∧
    WebhookEffect.handlerInvoked ∉
      handleWebhookRequest true (telegramGuard oversizedPostRequest) false
        oversizedPostRequest) :=
  ⟨rfl, by decide,
   webhook_guard_trip_blocks_handler true false oversizedPostRequest
     rfl (Or.inl (by decide))⟩

/-- Counterexample for C8: a POST request whose guard trips only after the
handler was invoked (trippedAtCompletion is true) and whose handler
promise later resolves still emits the webhook-processed diagnostic log,
so success-path logging is not suppressed for a tripped guard. -/
theorem webhook_tripped_success_log_counterexample :
    WebhookEffect.logProcessed ∈
      handleWebhookRequest true (telegramGuard resolvingPostRequest) true
        resolvingPostRequest := by
  simp [handleWebhookRequest, resolvingPostRequest, telegramGuard,
    installRequestBodyLimitGuard, TELEGRAM_WEBHOOK_MAX_BODY_BYTES,
    TELEGRAM_WEBHOOK_BODY_TIMEOUT_MS]

/-- Amended claim C8: once the guard has tripped, the error-path effects of a
late-arriving handler rejection are suppressed (no webhook-error log, no
runtime log, no status write) and the guard is still disposed; but a
late-arriving handler resolution still emits the webhook-processed
diagnostic log — the success path does not consult the tripped flag. -/
theorem webhook_tripped_late_effects (diagnosticsEnabled : Bool)
    (req : WebhookRequest)
    (hpost : req.method = "POST")
    (hsize : req.bodyBytes ≤ TELEGRAM_WEBHOOK_MAX_BODY_BYTES)
    (htime : req.bodyReadMs ≤ TELEGRAM_WEBHOOK_BODY_TIMEOUT_MS) :
    (∀ msg, req.outcome = .rejects msg →
      (∀ m, WebhookEffect.logError m ∉
        handleWebhookRequest diagnosticsEnabled (telegramGuard req) true req) ∧
      (∀ m, WebhookEffect.runtimeLog m ∉
        handleWebhookRequest diagnosticsEnabled (telegramGuard req) true req) ∧
      (∀ c, WebhookEffect.statusWritten c ∉
        handleWebhookRequest diagnosticsEnabled (telegramGuard req) true req) ∧
      WebhookEffect.guardDisposed ∈
        handleWebhookRequest diagnosticsEnabled (telegramGuard req) true req) ∧
    (req.outcome = .resolves → diagnosticsEnabled = true →
      WebhookEffect.logProcessed ∈
        handleWebhookRequest diagnosticsEnabled (telegramGuard req) true req) := by
  have htrip : (decide (req.bodyBytes > TELEGRAM_WEBHOOK_MAX_BODY_BYTES) ||
      decide (req.bodyReadMs > TELEGRAM_WEBHOOK_BODY_TIMEOUT_MS)) = false := by
    simp [Nat.not_lt_of_le hsize, Nat.not_lt_of_le htime]
  constructor
  · intro msg hout
    cases diagnosticsEnabled <;>
      simp [handleWebhookRequest, hpost, telegramGuard,
        installRequestBodyLimitGuard, htrip, hout]
  · intro hout hdiag
    simp [handleWebhookRequest, hpost, hdiag, telegramGuard,
      installRequestBodyLimitGuard, htrip, hout]

/-- Witness for C8 amended: a small POST whose handler rejects after the
guard tripped late emits neither the webhook-error log nor the runtime
log nor a 500, and the guard is still disposed. -/
theorem webhook_tripped_late_effects_witness :
    rejectingPostRequest.method = "POST" ∧
    rejectingPostRequest.bodyBytes ≤ TELEGRAM_WEBHOOK_MAX_BODY_BYTES ∧
    rejectingPostRequest.bodyReadMs ≤ TELEGRAM_WEBHOOK_BODY_TIMEOUT_MS ∧
    rejectingPostRequest.outcome = .rejects "boom" ∧
    (WebhookEffect.logError "boom" ∉
      handleWebhookRequest true (telegramGuard rejectingPostRequest) true
        rejectingPostRequest ∧
    WebhookEffect.runtimeLog "webhook handler failed: boom" ∉
      handleWebhookRequest true (telegramGuard rejectingPostRequest) true
        rejectingPostRequest ∧
    WebhookEffect.statusWritten 500 ∉
      handleWebhookRequest true (telegramGuard rejectingPostRequest) true
        rejectingPostRequest ∧
    WebhookEffect.guardDisposed ∈
      handleWebhookRequest true (telegramGuard rejectingPostRequest) true
        rejectingPostRequest) := by
  have h := (webhook_tripped_late_effects true rejectingPostRequest rfl
    (by decide) (by decide)).1 "boom" rfl
  exact ⟨rfl, by decide, by decide, rfl,
    h.1 "boom", h.2.1 "webhook handler failed: boom", h.2.2.1 500, h.2.2.2⟩

/-- Counterexample for C9: in the standalone-listener mode a GET request to
the webhook path receives a 404 response, not the method-not-allowed 405
with an Allow header that the claim requires in both modes. -/
theorem webhook_standalone_get_counterexample :
    standaloneServerDispatch true false "/healthz" "/telegram-webhook"
      getWebhookRequest = [.statusWritten 404] ∧
    WebhookEffect.statusWithAllow 405 "POST" ∉
      standaloneServerDispatch true false "/healthz" "/telegram-webhook"
        getWebhookRequest := by
  constructor <;> simp [standaloneServerDispatch, getWebhookRequest]

/-- Amended claim C9: a request to the webhook path whose method is not POST
receives a 405 with an Allow: POST header in gateway-router mode, and a
404 in standalone-listener mode (where the combined url/method check
rejects it before the shared handler runs); in both modes the downstream
webhook handler is never invoked. -/
theorem webhook_method_not_allowed (diagnosticsEnabled trippedAtCompletion : Bool)
    (healthPath path : String) (req : WebhookRequest)
    (hurl : req.url = path) (hm : req.method ≠ "POST") :
    gatewayRouterDispatch path
      (handleWebhookRequest diagnosticsEnabled (telegramGuard req)
        trippedAtCompletion) req = [.statusWithAllow 405 "POST"] ∧
    (req.url ≠ healthPath →
      standaloneServerDispatch diagnosticsEnabled trippedAtCompletion
        healthPath path req = [.statusWritten 404]) ∧
    WebhookEffect.handlerInvoked ∉
      gatewayRouterDispatch path
        (handleWebhookRequest diagnosticsEnabled (telegramGuard req)
          trippedAtCompletion) req ∧
    WebhookEffect.handlerInvoked ∉
      standaloneServerDispatch diagnosticsEnabled trippedAtCompletion
        healthPath path req := by
  have hg : gatewayRouterDispatch path
      (handleWebhookRequest diagnosticsEnabled (telegramGuard req)
        trippedAtCompletion) req = [.statusWithAllow 405 "POST"] := by
    simp [gatewayRouterDispatch, hurl, handleWebhookRequest, hm]
  refine ⟨hg, ?_, ?_, ?_⟩
  · intro hh
    simp [standaloneServerDispatch, hh, hm]
  · rw [hg]
    simp
  · by_cases hh : req.url = healthPath
    · simp [standaloneServerDispatch, hh]
    · simp [standaloneServerDispatch, hh, hm]

/-- Witness for C9 amended: a concrete GET to the webhook path gets 405
with Allow: POST through the gateway router and 404 from the standalone
listener, with no handler invocation in either mode. -/
theorem webhook_method_not_allowed_witness :
    getWebhookRequest.url = "/telegram-webhook" ∧
    getWebhookRequest.method ≠ "POST" ∧
    (gatewayRouterDispatch "/telegram-webhook"
      (handleWebhookRequest true (telegramGuard getWebhookRequest) false)
      getWebhookRequest = [.statusWithAllow 405 "POST"] ∧
    standaloneServerDispatch true false "/healthz" "/telegram-webhook"
      getWebhookRequest = [.statusWritten 404] ∧
    WebhookEffect.handlerInvoked ∉
      gatewayRouterDispatch "/telegram-webhook"
        (handleWebhookRequest true (telegramGuard getWebhookRequest) false)
        getWebhookRequest ∧
    WebhookEffect.handlerInvoked ∉
      standaloneServerDispatch true false "/healthz" "/telegram-webhook"
        getWebhookRequest) := by
  have h := webhook_method_not_allowed true false "/healthz"
    "/telegram-webhook" getWebhookRequest rfl (by decide)
  exact ⟨rfl, by decide, h.1, h.2.1 (by decide), h.2.2.1, h.2.2.2⟩

/-- Claim C10: when the secret option is absent, empty, or whitespace-only,
startTelegramWebhook throws before performing any side effect — no bot,
no listener, no plugin route, no external setWebhook call. -/
theorem startTelegramWebhook_empty_secret (o : StartOpts)
    (h : (o.secret.getD "").trim = "") :
    startTelegramWebhook o =
      ([], some ("Telegram webhook mode requires a non-empty secret token. " ++
        "Set channels.telegram.webhookSecret in your config.")) := by
  unfold startTelegramWebhook
  simp [h]

/-- Witness for C10: start options carrying an empty secret produce the
error and an empty effect list. -/
theorem startTelegramWebhook_empty_secret_witness :
    (emptySecretOpts.secret.getD "").trim = "" ∧
    startTelegramWebhook emptySecretOpts =
      ([], some ("Telegram webhook mode requires a non-empty secret token. " ++
        "Set channels.telegram.webhookSecret in your config.")) :=
  have ht : (emptySecretOpts.secret.getD "").trim = "" := by
    simp [emptySecretOpts, String.trim, Substring.trim, Substring.trimLeft,
      Substring.trimRight, Substring.takeWhileAux, Substring.takeRightWhileAux,
      String.toSubstring, Substring.toString, String.extract]
  ⟨ht, startTelegramWebhook_empty_secret emptySecretOpts ht⟩
